import Mathlib

/-!
Shallow embedding of the command-pool worker-thread experiment
("part 11 bis"): a dedicated, OS-thread-pinned goroutine that owns a
Vulkan command pool and services allocation / recording / free requests
arriving on a channel, plus the caller-facing facade
(`NewCommandPoolThread`, `Submit`, `Destroy`).

Conventions of the embedding:
- `vk.Result` is `Int`; `vk.Success` is the zero value `0`.
- Command-buffer handles are an abstract type `H`; the Go `error` returned
  by a recording callback is `Option E` (`none` = nil error).
- The native driver's behaviour for one request is an explicit environment
  `NativeEnv`: the result code of the `vk.AllocateCommandBuffers` call and
  the handles it writes into the caller-provided slice on success.
- Channel traffic and native calls are recorded as explicit event lists,
  so that sends on a request's reply channel (`backChan`), channel closes
  and native calls can be counted and ordered.
-/

/-- `vk.Result` (an `int32` enumeration in the Go binding). -/
abbrev VkResult := Int

/-- `vk.Success` (`VK_SUCCESS = 0`), which is also the zero value of
`vk.Result`. -/
def vkSuccess : VkResult := 0

/-- `CommandPoolThreadRequest`: buffers to free, the allocation count from
`Alloc.CommandBufferCount`, and the per-index recording callback
`Commands func(int, vk.CommandBuffer) error`.  The `id` identifies the
request's dedicated reply channel (`backChan`) in event traces. -/
structure CommandPoolThreadRequest (H E : Type) where
  id : Nat
  buffers : List H
  allocCount : Nat
  commands : Nat → H → Option E

/-- `CommandPoolThreadResponse`: the allocation result, the per-buffer
recording errors (`Commands []error`) and the allocated buffer handles. -/
structure CommandPoolThreadResponse (H E : Type) where
  alloc : VkResult
  commands : List (Option E)
  buffers : List H
deriving DecidableEq

/-- The Go zero value `CommandPoolThreadResponse\x7b\x7d`: result `0`
(= `vk.Success`), nil slices. -/
def zeroResponse (H E : Type) : CommandPoolThreadResponse H E :=
  ⟨vkSuccess, [], []⟩

/-- Behaviour of the native driver for one request's
`vk.AllocateCommandBuffers` call: `zero` is the zero value of a handle
(what `make([]vk.CommandBuffer, n)` fills the slice with), `allocRet` the
returned result code, and `handleAt k` the handle the driver writes at
index `k` of the slice when the call succeeds. -/
structure NativeEnv (H : Type) where
  zero : H
  allocRet : VkResult
  handleAt : Nat → H

/-- Events produced while the executor loop services one request, tagged
with the request's reply-channel id: the native `vk.FreeCommandBuffers`
and `vk.AllocateCommandBuffers` calls, each invocation of the recording
callback, each send on the request's `backChan`, and its close. -/
inductive CPEvent (H E : Type) where
  | free (id : Nat) (bufs : List H)
  | allocate (id : Nat) (count : Nat)
  | record (id : Nat) (k : Nat) (h : H) (outcome : Option E)
  | send (id : Nat) (r : CommandPoolThreadResponse H E)
  | closeBack (id : Nat)
deriving DecidableEq

/-- The body of `case request := <-requestChan:` in the executor loop,
transcribed event by event:

1. if `len(request.Buffers) > 0`, call `vk.FreeCommandBuffers` on them;
2. if `request.Alloc.CommandBufferCount > 0`, make a zero-filled slice of
   that length, call `vk.AllocateCommandBuffers`;
   - if the result is not `vk.Success`, send the response (failure code,
     nil `Commands`, the still-zero-filled slice) on `request.backChan`;
   - otherwise the driver has filled the slice; run `request.Commands(k,
     cmdBuffer)` for `k` over the buffers in index order, collecting each
     error into `response.Commands[k]`, then send the response;
3. unconditionally send `CommandPoolThreadResponse\x7b\x7d` on
   `request.backChan` and close it. -/
def processRequest {H E : Type} (env : NativeEnv H)
    (req : CommandPoolThreadRequest H E) : List (CPEvent H E) :=
  (if req.buffers.length > 0 then [CPEvent.free req.id req.buffers] else [])
  ++ (if req.allocCount > 0 then
        CPEvent.allocate req.id req.allocCount ::
        (if env.allocRet ≠ vkSuccess then
          [CPEvent.send req.id
            ⟨env.allocRet, [], List.replicate req.allocCount env.zero⟩]
        else
          ((List.range req.allocCount).map fun k =>
            CPEvent.record req.id k (env.handleAt k)
              (req.commands k (env.handleAt k)))
          ++ [CPEvent.send req.id
               ⟨env.allocRet,
                (List.range req.allocCount).map fun k =>
                  req.commands k (env.handleAt k),
                (List.range req.allocCount).map env.handleAt⟩])
      else [])
  ++ [CPEvent.send req.id (zeroResponse H E), CPEvent.closeBack req.id]

/-- The payload of a send event on reply channel `id`, if the event is
one. -/
def sendPayload {H E : Type} (id : Nat) :
    CPEvent H E → Option (CommandPoolThreadResponse H E)
  | CPEvent.send j r => if j = id then some r else none
  | _ => none

/-- The sequence of Response values sent on reply channel `id`, in order. -/
def sendsTo {H E : Type} (id : Nat) (tr : List (CPEvent H E)) :
    List (CommandPoolThreadResponse H E) :=
  tr.filterMap (sendPayload id)

/-- The payload of a recording-callback invocation for request `id`, if
the event is one. -/
def recordPayload {H E : Type} (id : Nat) :
    CPEvent H E → Option (Nat × H × Option E)
  | CPEvent.record j k h o => if j = id then some (k, h, o) else none
  | _ => none

/-- The sequence of recording-callback invocations performed for request
`id`: index, handle and resulting error, in execution order. -/
def recordsTo {H E : Type} (id : Nat) (tr : List (CPEvent H E)) :
    List (Nat × H × Option E) :=
  tr.filterMap (recordPayload id)

/-- Whether the trace closes reply channel `id`. -/
def closesBack {H E : Type} (id : Nat) (tr : List (CPEvent H E)) : Bool :=
  tr.any fun e =>
    match e with
    | CPEvent.closeBack j => j == id
    | _ => false

/-- Whether an event is one of the two native calls that touch child
handles in bulk (`vk.FreeCommandBuffers` / `vk.AllocateCommandBuffers`). -/
def isAllocOrFree {H E : Type} : CPEvent H E → Bool
  | CPEvent.free _ _ => true
  | CPEvent.allocate _ _ => true
  | _ => false

/-- Whether an event belongs to (touches the reply channel or native work
of) request `id`. -/
def touchesId {H E : Type} (id : Nat) : CPEvent H E → Bool
  | CPEvent.free j _ => j == id
  | CPEvent.allocate j _ => j == id
  | CPEvent.record j _ _ _ => j == id
  | CPEvent.send j _ => j == id
  | CPEvent.closeBack j => j == id

/-- Semantics of receiving on a Go channel whose complete send history is
`sends` and whose closed flag is `closed`: the `k`-th receive yields the
`k`-th value sent if one exists, otherwise the zero value `zero`
immediately when the channel is closed, and otherwise blocks (`none`). -/
def recvAt {R : Type} (sends : List R) (closed : Bool) (zero : R)
    (k : Nat) : Option R :=
  match sends.get? k with
  | some r => some r
  | none => if closed then some zero else none

/-- One outcome of the executor loop's `select`: a request arriving on
`requestChan` together with the native driver's behaviour for it, or the
shutdown signal arriving on `signalFinishedChan`. -/
inductive LoopInput (H E : Type) where
  | request (env : NativeEnv H) (req : CommandPoolThreadRequest H E)
  | shutdown

/-- Whether a loop input is the shutdown signal. -/
def isShutdown {H E : Type} : LoopInput H E → Bool
  | LoopInput.shutdown => true
  | _ => false

/-- Whether a list of loop inputs contains no shutdown signal. -/
def noShutdown {H E : Type} (l : List (LoopInput H E)) : Bool :=
  l.all fun x => !(isShutdown x)

/-- The `for loop { select { ... } }` of the executor goroutine, run over
the sequence of select outcomes: each request is serviced in full by
`processRequest`; a shutdown signal sets `loop = false`, so the loop exits
and everything after it is never consumed.  The boolean records whether
the loop terminated via a shutdown signal (`finishedChan != nil`); when
the input sequence is exhausted without one, the loop is still blocked in
`select`. -/
def loopRun {H E : Type} : List (LoopInput H E) → List (CPEvent H E) × Bool
  | [] => ([], false)
  | LoopInput.shutdown :: _ => ([], true)
  | LoopInput.request env req :: rest =>
      (processRequest env req ++ (loopRun rest).1, (loopRun rest).2)

/-- Events of the whole executor goroutine: OS-thread pinning, the native
pool create/destroy calls, the rendezvous send of the creation result, the
loop's per-request events, the completion signal and the deferred channel
closes. -/
inductive GoEvent (H E : Type) where
  | lockThread
  | createPool
  | sendCreateResult (ret : VkResult)
  | loopEvent (e : CPEvent H E)
  | destroyPool
  | sendFinished
  | closeFinished
  | closeSignalChan
  | closeRequestChan
  | unlockThread
deriving DecidableEq

/-- The executor goroutine body, transcribed in program order:
`runtime.LockOSThread()`; `vk.CreateCommandPool`; send the result on
`createResultChan`; if it was `vk.Success`, enter the consume loop (else
skip it); after the loop exits — which happens only on a shutdown signal —
call `vk.DestroyCommandPool` (guarded by `ret == vk.Success`), send on and
close the received `finishedChan` (guarded by `finishedChan != nil`); then
the deferred `close(signalFinishedChan)`, `close(requestChan)` and
`runtime.UnlockOSThread()` run in last-in-first-out order.  When creation
succeeded but no shutdown signal ever arrives, the goroutine stays blocked
in `select`, so neither the destroy call nor the deferred closes appear. -/
def goroutineBody {H E : Type} (createRet : VkResult)
    (inputs : List (LoopInput H E)) : List (GoEvent H E) :=
  [GoEvent.lockThread, GoEvent.createPool, GoEvent.sendCreateResult createRet]
  ++ (if createRet = vkSuccess then
        ((loopRun inputs).1.map GoEvent.loopEvent)
        ++ (if (loopRun inputs).2 then
              [GoEvent.destroyPool, GoEvent.sendFinished, GoEvent.closeFinished,
               GoEvent.closeSignalChan, GoEvent.closeRequestChan,
               GoEvent.unlockThread]
            else [])
      else
        [GoEvent.closeSignalChan, GoEvent.closeRequestChan,
         GoEvent.unlockThread])

/-- The loop events of a goroutine trace, in order. -/
def loopEventPayload {H E : Type} : GoEvent H E → Option (CPEvent H E)
  | GoEvent.loopEvent e => some e
  | _ => none

/-- The per-request events embedded in a goroutine trace, in order. -/
def loopEvents {H E : Type} (tr : List (GoEvent H E)) : List (CPEvent H E) :=
  tr.filterMap loopEventPayload

/-- How many `vk.DestroyCommandPool` calls a goroutine trace performs. -/
def destroyCount {H E : Type} (tr : List (GoEvent H E)) : Nat :=
  (tr.filter fun e =>
    match e with
    | GoEvent.destroyPool => true
    | _ => false).length

/-- Whether a goroutine trace executes the deferred `close(requestChan)`. -/
def hasCloseRequestChan {H E : Type} (tr : List (GoEvent H E)) : Bool :=
  tr.any fun e =>
    match e with
    | GoEvent.closeRequestChan => true
    | _ => false

/-- The `CommandPoolThread` facade: the two send-side channel endpoints
returned to the caller (modelled as opaque endpoint identifiers). -/
structure CommandPoolThread where
  sfChanId : Nat
  rChanId : Nat

/-- The tail of `NewCommandPoolThread` as a function of the creation
result received from the rendezvous channel: `ret := <-createResultChan`
blocks the constructor until the pinned goroutine has reported the outcome
of `vk.CreateCommandPool`; the returned `*CommandPoolThread` is non-nil
exactly when `ret == vk.Success`. -/
def NewCommandPoolThread (createRet : VkResult) :
    Option CommandPoolThread × VkResult :=
  if createRet = vkSuccess then (some ⟨0, 1⟩, createRet) else (none, createRet)

/-- Capacity of `requestChan` (`make(chan CommandPoolThreadRequest, 0)`). -/
def requestChanCapacity : Nat := 0

/-- Capacity of `signalFinishedChan`
(`make(chan chan<- struct\x7b\x7d, 0)`). -/
def signalFinishedChanCapacity : Nat := 0

/-- Capacity of `createResultChan` (`make(chan vk.Result, 0)`). -/
def createResultChanCapacity : Nat := 0

/-- Capacity of the completion channel made by `Destroy`
(`make(chan struct\x7b\x7d, 0)`). -/
def destroyCompletionChanCapacity : Nat := 0

/-- Capacity of the reply channel made by `Submit`
(`make(chan CommandPoolThreadResponse, 1)`). -/
def submitReplyChanCapacity : Nat := 1

/-- Fate of a `Submit` whose send on `requestChan` has not yet
rendezvoused when the executor goroutine runs to completion or blocks. -/
inductive PendingSubmitFate where
  | serviced
  | panickedOnClose
  | stillBlocked
deriving DecidableEq

/-- What happens to a `Submit` of request `id` that is blocked in
`cpt.rChan <- req` (the channel is unbuffered, so the send completes only
by rendezvous with the loop's receive): if the goroutine's trace services
the request, the send completed and `Submit` returned the reply channel;
otherwise, if the trace runs the deferred `close(requestChan)`, the
blocked send panics — in Go, closing a channel on which senders are
blocked makes those sends panic; otherwise the send is still blocked and
`Submit` has not returned. -/
def submitFate {H E : Type} (id : Nat) (tr : List (GoEvent H E)) :
    PendingSubmitFate :=
  if (loopEvents tr).any (touchesId id) then PendingSubmitFate.serviced
  else if hasCloseRequestChan tr then PendingSubmitFate.panickedOnClose
  else PendingSubmitFate.stillBlocked

/-- The operations performed by the facade methods on the caller's thread:
`Submit` makes the reply channel and sends the request; `Destroy` makes
the completion channel and sends it on the shutdown-signal channel; the
constructor receives the creation result; callers receive replies.  None
of these is a native graphics-API call — the facade bodies contain no
`vk.` call. -/
inductive CallerOp where
  | makeReplyChan
  | sendRequest
  | makeCompletionChan
  | sendShutdownSignal
  | recvCreateResult
  | recvReply
deriving DecidableEq

/-- An event of the whole process: an executor-goroutine event or a
caller-side facade operation. -/
inductive SysEvent (H E : Type) where
  | exec (e : GoEvent H E)
  | caller (op : CallerOp)

/-- Whether a goroutine event is a native call touching the pool or its
allocated children: `vk.CreateCommandPool`, `vk.DestroyCommandPool`,
`vk.FreeCommandBuffers`, `vk.AllocateCommandBuffers`, or a recording
callback executed against an allocated buffer. -/
def goIsNative {H E : Type} : GoEvent H E → Bool
  | GoEvent.createPool => true
  | GoEvent.destroyPool => true
  | GoEvent.loopEvent (CPEvent.free _ _) => true
  | GoEvent.loopEvent (CPEvent.allocate _ _) => true
  | GoEvent.loopEvent (CPEvent.record _ _ _ _) => true
  | _ => false

/-- Whether a process event is a native call touching the pool or its
children.  Caller-side facade operations never are: the bodies of
`Submit` and `Destroy` only create channels and send on them. -/
def sysIsNative {H E : Type} : SysEvent H E → Bool
  | SysEvent.exec e => goIsNative e
  | SysEvent.caller _ => false

/-! Helper lemmas shared by the claim theorems. -/

theorem sendsTo_append {H E : Type} (id : Nat) (l1 l2 : List (CPEvent H E)) :
    sendsTo id (l1 ++ l2) = sendsTo id l1 ++ sendsTo id l2 := by
  simp [sendsTo, List.filterMap_append]

theorem recordsTo_append {H E : Type} (id : Nat) (l1 l2 : List (CPEvent H E)) :
    recordsTo id (l1 ++ l2) = recordsTo id l1 ++ recordsTo id l2 := by
  simp [recordsTo, List.filterMap_append]

theorem loopRun_append_noShutdown {H E : Type} (xs ys : List (LoopInput H E))
    (h : noShutdown xs = true) :
    loopRun (xs ++ ys) = ((loopRun xs).1 ++ (loopRun ys).1, (loopRun ys).2) := by
  induction xs with
  | nil => rfl
  | cons x rest ih =>
      cases x with
      | shutdown => simp [noShutdown, isShutdown] at h
      | request env req =>
          have h' : noShutdown rest = true := by
            simp only [noShutdown, List.all_cons, Bool.and_eq_true] at h
            exact h.2
          simp [loopRun, ih h', List.append_assoc]

theorem filterMap_comp_some {α β : Type} (f : α → β) (l : List α) :
    l.filterMap (fun a => some (f a)) = l.map f := by
  induction l with
  | nil => rfl
  | cons a rest ih => simp [List.filterMap_cons, ih]

theorem filterMap_const_none {α β : Type} (l : List α) :
    l.filterMap (fun _ => (none : Option β)) = [] := by
  induction l with
  | nil => rfl
  | cons a rest ih => simp [List.filterMap_cons, ih]

theorem sendsTo_eq_nil_of_not_touches {H E : Type} (id : Nat)
    (l : List (CPEvent H E)) (h : l.any (touchesId id) = false) :
    sendsTo id l = [] := by
  induction l with
  | nil => rfl
  | cons e rest ih =>
      simp only [List.any_cons, Bool.or_eq_false_iff] at h
      have hrest := ih h.2
      cases e <;> simp_all [sendsTo, sendPayload, touchesId]

/-! The claims. -/

/-- C1: the claim states that exactly one Response is sent on a request's
reply channel before it is closed, including for requests with nonzero
allocation count.  The code violates this: for a request with
`Alloc.CommandBufferCount = 1` (allocation succeeding, driver handing out
handle `7`, recording returning nil), the loop body sends the
allocation-branch Response and then still executes the unconditional
`request.backChan <- CommandPoolThreadResponse\x7b\x7d` before
`close(request.backChan)` — two sends, not one. -/
theorem C1_nonzero_alloc_sends_two_responses :
    sendsTo 3 (processRequest (⟨0, vkSuccess, fun _ => 7⟩ : NativeEnv Nat)
        (⟨3, [], 1, fun _ _ => (none : Option String)⟩ :
          CommandPoolThreadRequest Nat String))
      = [⟨vkSuccess, [none], [7]⟩, ⟨vkSuccess, [], []⟩]
    ∧ (sendsTo 3 (processRequest (⟨0, vkSuccess, fun _ => 7⟩ : NativeEnv Nat)
        (⟨3, [], 1, fun _ _ => (none : Option String)⟩ :
          CommandPoolThreadRequest Nat String))).length ≠ 1 := by
  constructor
  · decide
  · decide

/-- C2 as stated is false: on allocation failure the delivered Response's
handle list is not empty — it is the pre-made `make([]vk.CommandBuffer,
count)` slice of length `count`, still holding only zero-value handles.
Concretely, for a request with allocation count 2 and the native call
failing with code `-1`, the first Response sent on the reply channel is
`(-1, [], [0, 0])`, whose buffer list `[0, 0]` is not `[]`. -/
theorem C2_counterexample_failure_buffers_nonempty :
    (sendsTo 2 (processRequest (⟨0, -1, fun k => k⟩ : NativeEnv Nat)
        (⟨2, [], 2, fun _ _ => (none : Option String)⟩ :
          CommandPoolThreadRequest Nat String))).head?
      = some ⟨-1, [], [0, 0]⟩
    ∧ ([0, 0] : List Nat) ≠ [] := by
  constructor
  · decide
  · decide

/-- C2 amended: for every request with nonzero allocation count whose
native allocate call fails, the Response delivered to the caller (the
first value sent on the reply channel) carries the native failure code, an
empty recording-outcome list, and a handle list of length equal to the
requested count consisting entirely of zero-value handles; the
caller-supplied recording function is never invoked for that request. -/
theorem C2_alloc_failure_delivered_response {H E : Type} (env : NativeEnv H)
    (req : CommandPoolThreadRequest H E)
    (hc : 0 < req.allocCount) (hf : env.allocRet ≠ vkSuccess) :
    (sendsTo req.id (processRequest env req)).head? =
      some ⟨env.allocRet, [], List.replicate req.allocCount env.zero⟩
    ∧ recordsTo req.id (processRequest env req) = [] := by
  unfold processRequest sendsTo recordsTo
  by_cases hb : req.buffers.length > 0 <;>
    simp [hb, hc, hf, List.filterMap_append, sendPayload, recordPayload]

/-- Witness for the amended C2 theorem at a concrete input. -/
theorem C2_alloc_failure_delivered_response_witness :
    (sendsTo 2 (processRequest (⟨9, -3, fun k => k⟩ : NativeEnv Nat)
        (⟨2, [5], 3, fun _ _ => (some "e" : Option String)⟩ :
          CommandPoolThreadRequest Nat String))).head?
      = some ⟨-3, [], List.replicate 3 9⟩
    ∧ recordsTo 2 (processRequest (⟨9, -3, fun k => k⟩ : NativeEnv Nat)
        (⟨2, [5], 3, fun _ _ => (some "e" : Option String)⟩ :
          CommandPoolThreadRequest Nat String)) = [] :=
  C2_alloc_failure_delivered_response
    (⟨9, -3, fun k => k⟩ : NativeEnv Nat)
    (⟨2, [5], 3, fun _ _ => (some "e" : Option String)⟩ :
      CommandPoolThreadRequest Nat String)
    (by decide) (by decide)

/-- C4: a request with allocation count 0 and an empty release list
produces exactly the two events "send the zero-value Response (success
code, empty handle list, empty outcome list)" and "close the reply
channel": in particular no native free or allocate call is issued while
processing it. -/
theorem C4_zero_count_request {H E : Type} (env : NativeEnv H)
    (req : CommandPoolThreadRequest H E)
    (hc : req.allocCount = 0) (hb : req.buffers = []) :
    processRequest env req =
      [CPEvent.send req.id ⟨vkSuccess, [], []⟩, CPEvent.closeBack req.id]
    ∧ sendsTo req.id (processRequest env req) = [⟨vkSuccess, [], []⟩]
    ∧ (processRequest env req).all (fun e => !(isAllocOrFree e)) = true := by
  refine ⟨?_, ?_, ?_⟩ <;>
    simp [processRequest, hc, hb, zeroResponse, sendsTo, sendPayload,
      isAllocOrFree]

/-- Witness for the C4 theorem at a concrete input. -/
theorem C4_zero_count_request_witness :
    processRequest (⟨0, 0, fun _ => 0⟩ : NativeEnv Nat)
        (⟨4, [], 0, fun _ _ => (none : Option String)⟩ :
          CommandPoolThreadRequest Nat String) =
      [CPEvent.send 4 ⟨vkSuccess, [], []⟩, CPEvent.closeBack 4]
    ∧ sendsTo 4 (processRequest (⟨0, 0, fun _ => 0⟩ : NativeEnv Nat)
        (⟨4, [], 0, fun _ _ => (none : Option String)⟩ :
          CommandPoolThreadRequest Nat String)) = [⟨vkSuccess, [], []⟩]
    ∧ (processRequest (⟨0, 0, fun _ => 0⟩ : NativeEnv Nat)
        (⟨4, [], 0, fun _ _ => (none : Option String)⟩ :
          CommandPoolThreadRequest Nat String)).all
        (fun e => !(isAllocOrFree e)) = true :=
  C4_zero_count_request (⟨0, 0, fun _ => 0⟩ : NativeEnv Nat)
    (⟨4, [], 0, fun _ _ => (none : Option String)⟩ :
      CommandPoolThreadRequest Nat String) rfl rfl

/-- C3: for every request whose native allocation of N handles succeeds,
the recording callback is invoked once per allocated handle in index order
(regardless of per-item errors, so one failure does not prevent the
remaining attempts), and the Response delivered to the caller (the first
value sent on the reply channel) carries a success code, exactly N handles
and exactly N outcomes, with outcome k equal to the recording result for
handle k — so when only index i's recording fails, only outcome i is an
error. -/
theorem C3_batch_recording_independence {H E : Type} (env : NativeEnv H)
    (req : CommandPoolThreadRequest H E)
    (hc : 0 < req.allocCount) (hs : env.allocRet = vkSuccess) :
    recordsTo req.id (processRequest env req) =
      (List.range req.allocCount).map (fun k =>
        (k, env.handleAt k, req.commands k (env.handleAt k)))
    ∧ (sendsTo req.id (processRequest env req)).head? =
        some ⟨vkSuccess,
              (List.range req.allocCount).map (fun k =>
                req.commands k (env.handleAt k)),
              (List.range req.allocCount).map env.handleAt⟩
    ∧ ((List.range req.allocCount).map env.handleAt).length = req.allocCount
    ∧ ((List.range req.allocCount).map (fun k =>
        req.commands k (env.handleAt k))).length = req.allocCount
    ∧ ∀ k, k < req.allocCount →
        ((List.range req.allocCount).map (fun j =>
          req.commands j (env.handleAt j))).get? k
          = some (req.commands k (env.handleAt k)) := by
  have hrec : (recordPayload req.id ∘ fun k =>
      CPEvent.record req.id k (env.handleAt k) (req.commands k (env.handleAt k)))
      = fun k => some (k, env.handleAt k, req.commands k (env.handleAt k)) := by
    funext k
    simp [recordPayload, Function.comp]
  have hsend : (sendPayload req.id ∘ fun k =>
      CPEvent.record req.id k (env.handleAt k) (req.commands k (env.handleAt k)))
      = fun _ => (none : Option (CommandPoolThreadResponse H E)) := by
    funext k
    simp [sendPayload, Function.comp]
  refine ⟨?_, ?_, by simp, by simp, ?_⟩
  · unfold processRequest recordsTo
    by_cases hb : req.buffers.length > 0 <;>
      simp [hb, hc, hs, List.filterMap_append, List.filterMap_map,
        recordPayload, hrec, filterMap_comp_some]
  · unfold processRequest sendsTo
    by_cases hb : req.buffers.length > 0 <;>
      simp [hb, hc, hs, List.filterMap_append, List.filterMap_map,
        sendPayload, hsend, filterMap_const_none]
  · intro k hk
    rw [List.get?_eq_getElem?, List.getElem?_map, List.getElem?_range hk]
    rfl

/-- Witness for the C3 theorem: the concrete scenario of spec section 8 —
three buffers allocated, recording failing only at index 1. -/
theorem C3_batch_recording_independence_witness :
    recordsTo 1 (processRequest (⟨0, vkSuccess, fun k => k + 10⟩ : NativeEnv Nat)
        (⟨1, [], 3, fun k _ => if k = 1 then some "boom" else none⟩ :
          CommandPoolThreadRequest Nat String)) =
      [(0, 10, none), (1, 11, some "boom"), (2, 12, none)]
    ∧ (sendsTo 1 (processRequest (⟨0, vkSuccess, fun k => k + 10⟩ : NativeEnv Nat)
        (⟨1, [], 3, fun k _ => if k = 1 then some "boom" else none⟩ :
          CommandPoolThreadRequest Nat String))).head? =
        some ⟨vkSuccess, [none, some "boom", none], [10, 11, 12]⟩
    ∧ ([10, 11, 12] : List Nat).length = 3
    ∧ ([none, some "boom", none] : List (Option String)).length = 3
    ∧ ∀ k, k < 3 →
        ([none, some "boom", none] : List (Option String)).get? k
          = some (if k = 1 then some "boom" else none) :=
  C3_batch_recording_independence
    (⟨0, vkSuccess, fun k => k + 10⟩ : NativeEnv Nat)
    (⟨1, [], 3, fun k _ => if k = 1 then some "boom" else none⟩ :
      CommandPoolThreadRequest Nat String)
    (by decide) rfl

theorem destroyCount_append {H E : Type} (l1 l2 : List (GoEvent H E)) :
    destroyCount (l1 ++ l2) = destroyCount l1 + destroyCount l2 := by
  simp [destroyCount, List.filter_append]

theorem destroyCount_map_loopEvent {H E : Type} (l : List (CPEvent H E)) :
    destroyCount (l.map GoEvent.loopEvent) = 0 := by
  induction l with
  | nil => rfl
  | cons e rest ih => simp [destroyCount, List.filter, ih]

theorem destroyCount_goroutineBody {H E : Type} (ret : VkResult)
    (inputs : List (LoopInput H E)) :
    destroyCount (goroutineBody ret inputs) =
      if ret = vkSuccess ∧ (loopRun inputs).2 = true then 1 else 0 := by
  unfold goroutineBody
  by_cases hr : ret = vkSuccess
  · by_cases hl : (loopRun inputs).2 = true
    · rw [if_pos hr, if_pos hl, if_pos ⟨hr, hl⟩, destroyCount_append,
        destroyCount_append, destroyCount_map_loopEvent]
      rfl
    · rw [if_pos hr, if_neg hl, if_neg (fun hand => hl hand.2),
        destroyCount_append, destroyCount_append, destroyCount_map_loopEvent]
      rfl
  · rw [if_neg hr, if_neg (fun hand => hr hand.1)]
    rfl

/-- C5: the constructor blocks on the creation-result rendezvous and
returns a non-nil `*CommandPoolThread` exactly when `vk.CreateCommandPool`
returned `vk.Success`; on creation failure the pinned goroutine never
enters the consume loop (its trace holds no loop event), issues no destroy
call, and terminates after running its deferred closes and unpinning. -/
theorem C5_construction_failure_no_loop {H E : Type} (ret : VkResult)
    (inputs : List (LoopInput H E)) (h : ret ≠ vkSuccess) :
    (NewCommandPoolThread ret).1 = none
    ∧ (NewCommandPoolThread ret).2 = ret
    ∧ goroutineBody ret inputs =
        [GoEvent.lockThread, GoEvent.createPool, GoEvent.sendCreateResult ret,
         GoEvent.closeSignalChan, GoEvent.closeRequestChan,
         GoEvent.unlockThread]
    ∧ destroyCount (goroutineBody ret inputs) = 0
    ∧ loopEvents (goroutineBody ret inputs) = []
    ∧ ∀ r : VkResult, ((NewCommandPoolThread r).1.isSome ↔ r = vkSuccess) := by
  refine ⟨?_, ?_, ?_, ?_, ?_, ?_⟩
  · simp [NewCommandPoolThread, h]
  · simp [NewCommandPoolThread, h]
  · simp [goroutineBody, h]
  · simp [goroutineBody, h, destroyCount, List.filter]
  · simp [goroutineBody, h, loopEvents, loopEventPayload, List.filterMap]
  · intro r
    unfold NewCommandPoolThread
    by_cases hr : r = vkSuccess <;> simp [hr]

/-- Witness for the C5 theorem at the concrete failure code
`vk.ErrorOutOfHostMemory` (-1). -/
theorem C5_construction_failure_no_loop_witness :
    (NewCommandPoolThread (-1)).1 = none
    ∧ (NewCommandPoolThread (-1)).2 = -1
    ∧ goroutineBody (-1) ([] : List (LoopInput Nat String)) =
        [GoEvent.lockThread, GoEvent.createPool, GoEvent.sendCreateResult (-1),
         GoEvent.closeSignalChan, GoEvent.closeRequestChan,
         GoEvent.unlockThread]
    ∧ destroyCount (goroutineBody (-1) ([] : List (LoopInput Nat String))) = 0
    ∧ loopEvents (goroutineBody (-1) ([] : List (LoopInput Nat String))) = []
    ∧ ∀ r : VkResult, ((NewCommandPoolThread r).1.isSome ↔ r = vkSuccess) :=
  C5_construction_failure_no_loop (-1) [] (by decide)

/-- C6: on receipt of the shutdown signal the loop stops consuming
requests (inputs after the signal contribute nothing), and the goroutine
then performs exactly one `vk.DestroyCommandPool` call, then signals
completion on the caller-provided channel, then terminates (deferred
closes and unpinning); moreover no goroutine trace ever contains more than
one destroy call. -/
theorem C6_shutdown_destroys_once_then_signals {H E : Type}
    (pre post : List (LoopInput H E)) (h : noShutdown pre = true) :
    goroutineBody vkSuccess (pre ++ LoopInput.shutdown :: post) =
      [GoEvent.lockThread, GoEvent.createPool,
       GoEvent.sendCreateResult vkSuccess]
      ++ ((loopRun pre).1.map GoEvent.loopEvent)
      ++ [GoEvent.destroyPool, GoEvent.sendFinished, GoEvent.closeFinished,
          GoEvent.closeSignalChan, GoEvent.closeRequestChan,
          GoEvent.unlockThread]
    ∧ destroyCount
        (goroutineBody vkSuccess (pre ++ LoopInput.shutdown :: post)) = 1
    ∧ ∀ (ret : VkResult) (inputs : List (LoopInput H E)),
        destroyCount (goroutineBody ret inputs) ≤ 1 := by
  have hrun : loopRun (pre ++ LoopInput.shutdown :: post)
      = ((loopRun pre).1 ++ [], true) := by
    rw [loopRun_append_noShutdown _ _ h]
    rfl
  refine ⟨?_, ?_, ?_⟩
  · simp [goroutineBody, hrun]
  · rw [destroyCount_goroutineBody, if_pos ⟨rfl, by rw [hrun]⟩]
  · intro ret inputs
    rw [destroyCount_goroutineBody]
    split <;> omega

/-- Witness for the C6 theorem: empty request stream before the shutdown
signal, one never-consumed input after it. -/
theorem C6_shutdown_destroys_once_then_signals_witness :
    goroutineBody vkSuccess
        (([] : List (LoopInput Nat String)) ++ LoopInput.shutdown ::
          [LoopInput.request (⟨0, 0, fun _ => 0⟩ : NativeEnv Nat)
            ⟨9, [], 0, fun _ _ => none⟩]) =
      [GoEvent.lockThread, GoEvent.createPool,
       GoEvent.sendCreateResult vkSuccess]
      ++ ((loopRun ([] : List (LoopInput Nat String))).1.map GoEvent.loopEvent)
      ++ [GoEvent.destroyPool, GoEvent.sendFinished, GoEvent.closeFinished,
          GoEvent.closeSignalChan, GoEvent.closeRequestChan,
          GoEvent.unlockThread]
    ∧ destroyCount (goroutineBody vkSuccess
        (([] : List (LoopInput Nat String)) ++ LoopInput.shutdown ::
          [LoopInput.request (⟨0, 0, fun _ => 0⟩ : NativeEnv Nat)
            ⟨9, [], 0, fun _ _ => none⟩])) = 1
    ∧ ∀ (ret : VkResult) (inputs : List (LoopInput Nat String)),
        destroyCount (goroutineBody ret inputs) ≤ 1 :=
  C6_shutdown_destroys_once_then_signals []
    [LoopInput.request (⟨0, 0, fun _ => 0⟩ : NativeEnv Nat)
      ⟨9, [], 0, fun _ _ => none⟩] rfl

theorem sendsTo_processRequest_ne_nil {H E : Type} (env : NativeEnv H)
    (req : CommandPoolThreadRequest H E) :
    sendsTo req.id (processRequest env req) ≠ [] := by
  unfold processRequest
  rw [sendsTo_append, sendsTo_append]
  intro hcontra
  rcases List.append_eq_nil.mp hcontra with ⟨-, h3⟩
  simp [sendsTo, sendPayload, List.filterMap] at h3

theorem closesBack_processRequest {H E : Type} (env : NativeEnv H)
    (req : CommandPoolThreadRequest H E) :
    closesBack req.id (processRequest env req) = true := by
  unfold processRequest closesBack
  simp [List.any_append]

/-- C7: requests are fully serviced one at a time in submission order.
For any two requests A and B with A earlier in the submission stream, the
loop's trace is the concatenation of the per-request traces in stream
order, so the processing of A — including the sends on A's reply channel
and its close — is a contiguous block that completes before any processing
of B begins. -/
theorem C7_fifo_full_service_in_order {H E : Type}
    (l1 l2 l3 : List (LoopInput H E))
    (eA : NativeEnv H) (A : CommandPoolThreadRequest H E)
    (eB : NativeEnv H) (B : CommandPoolThreadRequest H E)
    (h1 : noShutdown l1 = true) (h2 : noShutdown l2 = true) :
    (loopRun (l1 ++ LoopInput.request eA A ::
        (l2 ++ LoopInput.request eB B :: l3))).1
      = (loopRun l1).1 ++ processRequest eA A ++ ((loopRun l2).1
        ++ (processRequest eB B ++ (loopRun l3).1))
    ∧ sendsTo A.id (processRequest eA A) ≠ []
    ∧ closesBack A.id (processRequest eA A) = true := by
  refine ⟨?_, sendsTo_processRequest_ne_nil eA A, closesBack_processRequest eA A⟩
  rw [loopRun_append_noShutdown _ _ h1]
  show ((loopRun l1).1 ++ (processRequest eA A
      ++ (loopRun (l2 ++ LoopInput.request eB B :: l3)).1)) = _
  rw [loopRun_append_noShutdown _ _ h2]
  show (loopRun l1).1 ++ (processRequest eA A ++ ((loopRun l2).1
      ++ (processRequest eB B ++ (loopRun l3).1))) = _
  simp [List.append_assoc]

/-- Witness for the C7 theorem: two concrete requests submitted in order
with nothing in between. -/
theorem C7_fifo_full_service_in_order_witness :
    (loopRun (([] : List (LoopInput Nat String)) ++ LoopInput.request
        (⟨0, vkSuccess, fun _ => 7⟩ : NativeEnv Nat)
        (⟨1, [], 1, fun _ _ => none⟩ : CommandPoolThreadRequest Nat String) ::
        ([] ++ LoopInput.request
          (⟨0, vkSuccess, fun _ => 8⟩ : NativeEnv Nat)
          (⟨2, [], 0, fun _ _ => none⟩ : CommandPoolThreadRequest Nat String) ::
          []))).1
      = (loopRun ([] : List (LoopInput Nat String))).1
        ++ processRequest (⟨0, vkSuccess, fun _ => 7⟩ : NativeEnv Nat)
          (⟨1, [], 1, fun _ _ => none⟩ : CommandPoolThreadRequest Nat String)
        ++ ((loopRun ([] : List (LoopInput Nat String))).1
          ++ (processRequest (⟨0, vkSuccess, fun _ => 8⟩ : NativeEnv Nat)
            (⟨2, [], 0, fun _ _ => none⟩ : CommandPoolThreadRequest Nat String)
            ++ (loopRun ([] : List (LoopInput Nat String))).1))
    ∧ sendsTo 1 (processRequest (⟨0, vkSuccess, fun _ => 7⟩ : NativeEnv Nat)
        (⟨1, [], 1, fun _ _ => none⟩ : CommandPoolThreadRequest Nat String)) ≠ []
    ∧ closesBack 1 (processRequest (⟨0, vkSuccess, fun _ => 7⟩ : NativeEnv Nat)
        (⟨1, [], 1, fun _ _ => none⟩ :
          CommandPoolThreadRequest Nat String)) = true :=
  C7_fifo_full_service_in_order [] [] []
    (⟨0, vkSuccess, fun _ => 7⟩ : NativeEnv Nat)
    (⟨1, [], 1, fun _ _ => none⟩ : CommandPoolThreadRequest Nat String)
    (⟨0, vkSuccess, fun _ => 8⟩ : NativeEnv Nat)
    (⟨2, [], 0, fun _ _ => none⟩ : CommandPoolThreadRequest Nat String)
    rfl rfl

theorem sendsTo_processRequest_shape {H E : Type} (env : NativeEnv H)
    (req : CommandPoolThreadRequest H E) :
    sendsTo req.id (processRequest env req) = [zeroResponse H E]
    ∨ ∃ r, sendsTo req.id (processRequest env req)
        = [r, zeroResponse H E] := by
  have hsend : (sendPayload req.id ∘ fun k =>
      CPEvent.record req.id k (env.handleAt k) (req.commands k (env.handleAt k)))
      = fun _ => (none : Option (CommandPoolThreadResponse H E)) := by
    funext k
    simp [sendPayload, Function.comp]
  unfold processRequest
  by_cases hb : req.buffers.length > 0 <;> by_cases hc : req.allocCount > 0 <;>
    by_cases hf : env.allocRet ≠ vkSuccess <;>
      simp [hb, hc, hf, sendsTo, List.filterMap_append, List.filterMap_map,
        sendPayload, hsend, filterMap_const_none]

/-- C10: after the executor finishes processing a request it closes the
request's reply channel, so with the channel's complete send history every
receive after the delivered (first) Response has been taken yields the
zero-value Response without blocking; and the reply channel created by
`Submit` has buffer capacity exactly one. -/
theorem C10_reply_channel_closed_after_processing {H E : Type}
    (env : NativeEnv H) (req : CommandPoolThreadRequest H E)
    (k : Nat) (hk : 1 ≤ k) :
    closesBack req.id (processRequest env req) = true
    ∧ recvAt (sendsTo req.id (processRequest env req)) true
        (zeroResponse H E) k = some (zeroResponse H E)
    ∧ submitReplyChanCapacity = 1 := by
  refine ⟨closesBack_processRequest env req, ?_, rfl⟩
  match k, hk with
  | k + 1, _ =>
    rcases sendsTo_processRequest_shape env req with h | ⟨r, h⟩
    · rw [h]
      simp [recvAt]
    · rw [h]
      match k with
      | 0 => rfl
      | k + 1 => simp [recvAt]

/-- Witness for the C10 theorem at a concrete request and the second
receive. -/
theorem C10_reply_channel_closed_after_processing_witness :
    closesBack 6 (processRequest (⟨0, vkSuccess, fun _ => 7⟩ : NativeEnv Nat)
        (⟨6, [], 1, fun _ _ => none⟩ :
          CommandPoolThreadRequest Nat String)) = true
    ∧ recvAt (sendsTo 6 (processRequest
        (⟨0, vkSuccess, fun _ => 7⟩ : NativeEnv Nat)
        (⟨6, [], 1, fun _ _ => none⟩ :
          CommandPoolThreadRequest Nat String))) true
        (zeroResponse Nat String) 1 = some (zeroResponse Nat String)
    ∧ submitReplyChanCapacity = 1 :=
  C10_reply_channel_closed_after_processing
    (⟨0, vkSuccess, fun _ => 7⟩ : NativeEnv Nat)
    (⟨6, [], 1, fun _ _ => none⟩ : CommandPoolThreadRequest Nat String)
    1 (by decide)

theorem loopEvents_goroutineBody {H E : Type} (ret : VkResult)
    (inputs : List (LoopInput H E)) :
    loopEvents (goroutineBody ret inputs) =
      if ret = vkSuccess then (loopRun inputs).1 else [] := by
  have hmap : ∀ l : List (CPEvent H E),
      l.filterMap (loopEventPayload ∘ GoEvent.loopEvent) = l := by
    intro l
    induction l with
    | nil => rfl
    | cons e rest ih => simp [List.filterMap_cons, loopEventPayload, ih]
  unfold goroutineBody loopEvents
  by_cases hr : ret = vkSuccess <;> by_cases hl : (loopRun inputs).2 = true <;>
    simp [hr, hl, List.filterMap_append, List.filterMap_map, hmap,
      loopEventPayload, List.filterMap]

theorem hasCloseRequestChan_shutdown {H E : Type}
    (inputs : List (LoopInput H E)) (h : (loopRun inputs).2 = true) :
    hasCloseRequestChan (goroutineBody vkSuccess inputs) = true := by
  unfold goroutineBody hasCloseRequestChan
  simp [h, List.any_append]

/-- C9 amended: shutdown does not drain — any submission that the loop has
not yet rendezvoused with when the shutdown signal is serviced is never
processed, and no value is ever sent on its reply channel.  But because
`requestChan` is unbuffered (capacity 0), such a request was never
enqueued inside the channel: its `Submit` call is still blocked on the
send and has not returned the reply channel to its caller, and when the
terminating executor's deferred `close(requestChan)` runs, that blocked
send panics (Go panics blocked senders when their channel is closed)
rather than leaving the caller waiting on a reply channel. -/
theorem C9_shutdown_no_drain_pending_send_panics {H E : Type}
    (pre post : List (LoopInput H E)) (id : Nat)
    (h : noShutdown pre = true)
    (hid : (loopRun pre).1.any (touchesId id) = false) :
    (loopRun (pre ++ LoopInput.shutdown :: post)).1 = (loopRun pre).1
    ∧ sendsTo id (loopEvents
        (goroutineBody vkSuccess (pre ++ LoopInput.shutdown :: post))) = []
    ∧ submitFate id
        (goroutineBody vkSuccess (pre ++ LoopInput.shutdown :: post))
        = PendingSubmitFate.panickedOnClose
    ∧ requestChanCapacity = 0 := by
  have hrun : loopRun (pre ++ LoopInput.shutdown :: post)
      = ((loopRun pre).1 ++ [], true) := by
    rw [loopRun_append_noShutdown _ _ h]
    rfl
  have hle : loopEvents (goroutineBody vkSuccess
      (pre ++ LoopInput.shutdown :: post)) = (loopRun pre).1 := by
    rw [loopEvents_goroutineBody, if_pos rfl, hrun]
    simp
  refine ⟨by rw [hrun]; simp, ?_, ?_, rfl⟩
  · rw [hle]
    exact sendsTo_eq_nil_of_not_touches id _ hid
  · unfold submitFate
    rw [hle, hid, if_neg (by simp),
      hasCloseRequestChan_shutdown _ (by rw [hrun]), if_pos rfl]

/-- Witness for the amended C9 theorem: one request pending behind the
shutdown signal. -/
theorem C9_shutdown_no_drain_pending_send_panics_witness :
    (loopRun (([] : List (LoopInput Nat String)) ++ LoopInput.shutdown ::
        [LoopInput.request (⟨0, 0, fun _ => 0⟩ : NativeEnv Nat)
          ⟨8, [], 2, fun _ _ => none⟩])).1
      = (loopRun ([] : List (LoopInput Nat String))).1
    ∧ sendsTo 8 (loopEvents (goroutineBody vkSuccess
        (([] : List (LoopInput Nat String)) ++ LoopInput.shutdown ::
          [LoopInput.request (⟨0, 0, fun _ => 0⟩ : NativeEnv Nat)
            ⟨8, [], 2, fun _ _ => none⟩]))) = []
    ∧ submitFate 8 (goroutineBody vkSuccess
        (([] : List (LoopInput Nat String)) ++ LoopInput.shutdown ::
          [LoopInput.request (⟨0, 0, fun _ => 0⟩ : NativeEnv Nat)
            ⟨8, [], 2, fun _ _ => none⟩]))
        = PendingSubmitFate.panickedOnClose
    ∧ requestChanCapacity = 0 :=
  C9_shutdown_no_drain_pending_send_panics []
    [LoopInput.request (⟨0, 0, fun _ => 0⟩ : NativeEnv Nat)
      ⟨8, [], 2, fun _ _ => none⟩] 8 rfl rfl

/-- C9 as stated is refuted at a concrete scenario: with the shutdown
signal serviced while a submission of request 5 is still pending, the
request is indeed never processed and its reply channel never receives a
value — but the claim's conclusion that a caller ends up blocking forever
on that reply channel is wrong: the submission channel has capacity 0, so
the pending request was never enqueued and `Submit` never returned its
reply channel; the pending send panics when the executor's deferred
`close(requestChan)` runs, instead of staying blocked. -/
theorem C9_counterexample_pending_submit_panics :
    submitFate 5 (goroutineBody vkSuccess
        ([LoopInput.shutdown] : List (LoopInput Nat String)))
      = PendingSubmitFate.panickedOnClose
    ∧ PendingSubmitFate.panickedOnClose ≠ PendingSubmitFate.stillBlocked
    ∧ sendsTo 5 (loopEvents (goroutineBody vkSuccess
        ([LoopInput.shutdown] : List (LoopInput Nat String)))) = []
    ∧ requestChanCapacity = 0 := by
  refine ⟨by decide, by decide, by decide, rfl⟩

/-- C8: single-thread exclusivity of native calls.  The executor goroutine
pins itself to one OS thread before any native call (`runtime.LockOSThread`
is its first action), and every native call touching the pool or its
allocated children — create, destroy, free, allocate, and the recording
callbacks — occurs in the goroutine's own trace; the facade operations
executed on caller threads (channel creation and channel sends in `Submit`
and `Destroy`) are never native calls.  Hence in any process trace whose
events are either executor events tagged with the pinned thread identity
or caller-side facade operations on arbitrary threads, every native call
carries the single pinned thread identity. -/
theorem C8_native_calls_on_one_thread {H E : Type} (tid : Nat)
    (createRet : VkResult) (inputs : List (LoopInput H E))
    (trace : List (Nat × SysEvent H E))
    (h : ∀ p ∈ trace,
        (p.1 = tid ∧ p.2 ∈ (goroutineBody createRet inputs).map SysEvent.exec)
        ∨ ∃ op, p.2 = SysEvent.caller op) :
    (∀ p ∈ trace, sysIsNative p.2 = true → p.1 = tid)
    ∧ (goroutineBody createRet inputs).head? = some GoEvent.lockThread := by
  constructor
  · intro p hp hn
    rcases h p hp with ⟨h1, -⟩ | ⟨op, hop⟩
    · exact h1
    · rw [hop] at hn
      simp [sysIsNative] at hn
  · rfl

/-- Witness for the C8 theorem: a two-event trace interleaving the pinned
executor's pool creation with a caller-side submission from another
thread. -/
theorem C8_native_calls_on_one_thread_witness :
    (∀ p ∈ [((7 : Nat), SysEvent.exec (GoEvent.createPool : GoEvent Nat String)),
            ((3 : Nat), SysEvent.caller CallerOp.sendRequest)],
        sysIsNative p.2 = true → p.1 = 7)
    ∧ (goroutineBody vkSuccess ([] : List (LoopInput Nat String))).head?
        = some GoEvent.lockThread :=
  C8_native_calls_on_one_thread 7 vkSuccess []
    [((7 : Nat), SysEvent.exec (GoEvent.createPool : GoEvent Nat String)),
     ((3 : Nat), SysEvent.caller CallerOp.sendRequest)]
    (by
      intro p hp
      simp only [List.mem_cons, List.not_mem_nil, or_false] at hp
      rcases hp with rfl | rfl
      · exact Or.inl ⟨rfl, by simp [goroutineBody, loopRun]⟩
      · exact Or.inr ⟨CallerOp.sendRequest, rfl⟩)
